import Mathlib

/-!
Shallow embedding of the Editor.js Title block plugin (src/index.js).

JavaScript values that may be `undefined` are modelled with `Option`;
runtime faults (such as calling a method on `undefined`) are modelled
with `Except JSError`.  A DOM element is modelled by the attributes the
plugin reads or writes; its `innerHTML` is the stored inner markup.
Each method that touches instance state is embedded as an explicit
state-passing function on `TitleState`.
-/

namespace TitleTool

/-- Error raised by the JavaScript runtime, e.g. property access or
method call on `undefined`. -/
inductive JSError where
  | typeError
deriving Repr, DecidableEq

/-- Editor.js API surface used by the plugin: `api.styles.block` and
`api.i18n.t`. -/
structure Api where
  stylesBlock : String
  i18nT : String → String

/-- TitleData record: the tool's input and output data format.  The
`text` field may be absent on a malformed record, hence `Option`. -/
structure TitleData where
  text : Option String
deriving Repr, DecidableEq

/-- TitleConfig: optional `placeholder` and `preserveBlank` fields. -/
structure TitleConfig where
  placeholder : Option String
  preserveBlank : Option Bool
deriving Repr, DecidableEq

/-- DOM element as the plugin sees it: tag name, CSS classes,
contentEditable flag, the `data-placeholder` attribute and the inner
markup. -/
structure Element where
  tag : String
  classes : List String
  contentEditable : Bool
  placeholderAttr : String
  innerHTML : String
deriving Repr, DecidableEq

/-- Instance state of a Title block: the fields assigned in the
constructor (`api`, `_CSS`, `_placeholder`, `_preserveBlank`,
`_element`, `_data`). -/
structure TitleState where
  api : Api
  cssBlock : String
  cssWrapper : String
  placeholder : String
  preserveBlank : Bool
  element : Element
  dataRec : TitleData

/-- Static `DEFAULT_PLACEHOLDER` getter: the empty string. -/
def DEFAULT_PLACEHOLDER : String := ""

/-- Method `drawView`: creates the `h1` element, adds the wrapper and
block classes, sets contentEditable and the placeholder dataset entry
(through `api.i18n.t`), with empty content. -/
def drawView (api : Api) (cssWrapper cssBlock placeholder : String) : Element :=
  { tag := "h1"
    classes := [cssWrapper, cssBlock]
    contentEditable := true
    placeholderAttr := api.i18nT placeholder
    innerHTML := "" }

/-- Setter `set data(data)`: `this._data = data || {}` then
`this._element.innerHTML = this._data.text || ''`.  A missing (`none`)
argument is lenient, becoming the empty record; a missing or empty
`text` writes the empty string. -/
def setData (s : TitleState) (d : Option TitleData) : TitleState :=
  let newRec : TitleData :=
    match d with
    | some v => v
    | none => { text := none }
  { s with
    dataRec := newRec
    element :=
      { s.element with
        innerHTML :=
          match newRec.text with
          | some t => if t = "" then "" else t
          | none => "" } }

/-- Constructor: reads `config.placeholder` and `config.preserveBlank`
(so an `undefined` config faults on the first property access), builds
the view, then runs the `data` setter on the initial data. -/
def construct (api : Api) (config : Option TitleConfig)
    (data : Option TitleData) : Except JSError TitleState :=
  match config with
  | none => .error .typeError
  | some cfg =>
    let placeholder :=
      match cfg.placeholder with
      | some p => if p = "" then DEFAULT_PLACEHOLDER else p
      | none => DEFAULT_PLACEHOLDER
    let preserveBlank :=
      match cfg.preserveBlank with
      | some b => b
      | none => false
    let cssWrapper := "ce-title"
    let cssBlock := api.stylesBlock
    let s0 : TitleState :=
      { api := api
        cssBlock := cssBlock
        cssWrapper := cssWrapper
        placeholder := placeholder
        preserveBlank := preserveBlank
        element := drawView api cssWrapper cssBlock placeholder
        dataRec := { text := none } }
    .ok (setData s0 data)

/-- Method `render`: returns the instance's element. -/
def render (s : TitleState) : Element := s.element

/-- Method `save(toolsContent)`: returns `{text: toolsContent.innerHTML}`. -/
def save (toolsContent : Element) : TitleData :=
  { text := some toolsContent.innerHTML }

/-- Method-level view of `save` with the instance state threaded
through: the body reads only its argument and writes nothing. -/
def saveOp (s : TitleState) (toolsContent : Element) :
    TitleData × TitleState :=
  (save toolsContent, s)

/-- Method `validate(savedData)`: calls `savedData.text.trim()`, which
faults when `text` is absent; otherwise returns `false` exactly when
the trimmed text is empty and `_preserveBlank` is unset. -/
def validateOp (s : TitleState) (savedData : TitleData) :
    Except JSError Bool × TitleState :=
  match savedData.text with
  | none => (.error .typeError, s)
  | some t =>
    (if t.trim = "" && !s.preserveBlank then .ok false else .ok true, s)

/-- Paste event as consumed by `onPaste`: `event.detail.data` is the
pre-sanitized pasted element. -/
structure PasteEvent where
  detailData : Element

/-- Method `onPaste(event)`: builds `{text: event.detail.data.innerHTML}`
and assigns it through the `data` setter. -/
def onPaste (s : TitleState) (event : PasteEvent) : TitleState :=
  setData s (some { text := some event.detailData.innerHTML })

/-- Getter `get data()`: reads `this._element.innerHTML`, stores it on
`this._data.text`, returns the record. -/
def getData (s : TitleState) : TitleData × TitleState :=
  let text := s.element.innerHTML
  let newRec : TitleData := { s.dataRec with text := some text }
  (newRec, { s with dataRec := newRec })

/-- Static `conversionConfig` getter. -/
structure ConversionConfig where
  exportProp : String
  importProp : String
deriving Repr, DecidableEq

/-- Static `conversionConfig`: both directions use the `text` property. -/
def conversionConfig : ConversionConfig :=
  { exportProp := "text", importProp := "text" }

/-- Static `pasteConfig` getter shape. -/
structure PasteConfig where
  tags : List String
deriving Repr, DecidableEq

/-- Static `pasteConfig`: only `H1` tags are handled. -/
def pasteConfig : PasteConfig := { tags := ["H1"] }

/-- Concrete API instance used to instantiate closed statements. -/
def apiEx : Api := { stylesBlock := "cdx-block", i18nT := fun s => s }

/-- Concrete block state used to instantiate closed statements. -/
def stA : TitleState :=
  { api := apiEx
    cssBlock := "cdx-block"
    cssWrapper := "ce-title"
    placeholder := ""
    preserveBlank := false
    element :=
      { tag := "h1", classes := ["ce-title", "cdx-block"]
        contentEditable := true, placeholderAttr := ""
        innerHTML := "Hello" }
    dataRec := { text := some "Hello" } }

/-- Second concrete block state: same `preserveBlank` as `stA` but a
different element content and cached record. -/
def stB : TitleState :=
  { api := apiEx
    cssBlock := "cdx-block"
    cssWrapper := "ce-title"
    placeholder := "Type a title"
    preserveBlank := false
    element :=
      { tag := "h1", classes := ["ce-title", "cdx-block"]
        contentEditable := true, placeholderAttr := "Type a title"
        innerHTML := "<b>Other</b>" }
    dataRec := { text := none } }

/-- C1: for every block instance and every savedData record carrying a
text string, `validate` returns `false` exactly when the trimmed text
is empty and `preserveBlank` is false, and returns `true` in every
other case. -/
theorem validate_blank_iff (s : TitleState) (t : String) :
    ((validateOp s { text := some t }).1 = .ok false ↔
      (t.trim = "" ∧ s.preserveBlank = false)) ∧
    ((validateOp s { text := some t }).1 = .ok true ↔
      ¬(t.trim = "" ∧ s.preserveBlank = false)) := by
  simp only [validateOp]
  by_cases hb : s.preserveBlank
  · by_cases ht : t.trim = "" <;> simp [hb, ht]
  · by_cases ht : t.trim = "" <;>
      simp [Bool.not_eq_true] at hb <;> simp [hb, ht]

/-- C2: constructing a block with initial data `{text: t}` and then
saving the rendered node yields `{text: t}` again, for every string
`t` and every defined config. -/
theorem save_render_roundtrip (api : Api) (cfg : TitleConfig) (t : String) :
    (construct api (some cfg) (some { text := some t })).map
      (fun s => save (render s)) = .ok { text := some t } := by
  simp only [construct, setData, render, save, Except.map]
  by_cases ht : t = "" <;> simp [ht]

/-- C3 counterexample: construction with an absent (`undefined`) config
does not succeed; it faults on the `config.placeholder` access. -/
theorem construct_undefined_config_faults :
    construct apiEx none none = .error .typeError := rfl

/-- C3 amended: given any defined config, construction succeeds for
every initial data (including absent), and missing optional fields
default: empty placeholder, `preserveBlank` false, empty data record,
empty element content. -/
theorem construct_total_given_config (api : Api) (cfg : TitleConfig)
    (d : Option TitleData) :
    (construct api (some cfg) d).isOk = true ∧
    ∃ s, construct api (some { placeholder := none, preserveBlank := none })
          none = .ok s ∧
        s.placeholder = "" ∧ s.preserveBlank = false ∧
        s.dataRec = { text := none } ∧ s.element.innerHTML = "" := by
  refine ⟨rfl, ?_⟩
  exact ⟨_, rfl, rfl, rfl, rfl, rfl⟩

/-- C4: calling `validate` on a record whose `text` field is absent
does not yield a boolean: it faults with a runtime type error (the
`.trim()` call on `undefined`), leaving the state unchanged. -/
theorem validate_missing_text_faults (s : TitleState) :
    validateOp s { text := none } = (.error .typeError, s) := rfl

/-- C5: the `data` getter re-derives `text` from the live element's
current inner markup and refreshes the internal cached record as a
side effect, whatever the cache previously held. -/
theorem getData_rederives (s : TitleState) :
    (getData s).1.text = some s.element.innerHTML ∧
    (getData s).2.dataRec.text = some s.element.innerHTML ∧
    (getData s).2.element = s.element := by
  exact ⟨rfl, rfl, rfl⟩

/-- C6: the `data` setter replaces the internal record with the given
value, or the empty record when none is given, and writes `text` to
the element's inner markup when present and non-empty, the empty
string otherwise. -/
theorem setData_spec (s : TitleState) (v : Option TitleData) :
    (setData s v).dataRec =
      (match v with
        | some d => d
        | none => { text := none }) ∧
    (setData s v).element.innerHTML =
      (match v with
        | some d =>
          match d.text with
          | some t => if t = "" then "" else t
          | none => ""
        | none => "") := by
  cases v with
  | none => exact ⟨rfl, rfl⟩
  | some d => cases d with
    | mk text => cases text <;> exact ⟨rfl, rfl⟩

/-- C7: after `onPaste` with a pasted element of inner markup `m`,
saving the rendered node returns `{text: m}`, replacing any prior
content. -/
theorem onPaste_replaces_content (s : TitleState) (ev : PasteEvent) :
    save (render (onPaste s ev)) = { text := some ev.detailData.innerHTML } := by
  simp only [onPaste, setData, render, save]
  by_cases h : ev.detailData.innerHTML = "" <;> simp [h]

/-- C8: `save` is a pure read: it returns the rendered node's current
inner markup wrapped in a record and leaves the instance state (and
hence the node, the internal record and every other field) unchanged. -/
theorem save_pure_read (s : TitleState) (node : Element) :
    saveOp s node = ({ text := some node.innerHTML }, s) := rfl

/-- C9: the static capability declarations are fixed constants:
`conversionConfig.export` and `conversionConfig.import` are both
`'text'`, and `pasteConfig.tags` is exactly `['H1']`. -/
theorem static_configs_fixed :
    conversionConfig.exportProp = "text" ∧
    conversionConfig.importProp = "text" ∧
    pasteConfig.tags = ["H1"] := ⟨rfl, rfl, rfl⟩

/-- C10: `validate` is a pure function of `savedData` and the
`preserveBlank` flag alone: two instances agreeing on `preserveBlank`
give the same result on any record, regardless of element content or
cached data, and neither instance's state is mutated. -/
theorem validate_two_arg_pure (s₁ s₂ : TitleState) (d : TitleData)
    (h : s₁.preserveBlank = s₂.preserveBlank) :
    (validateOp s₁ d).1 = (validateOp s₂ d).1 ∧
    (validateOp s₁ d).2 = s₁ ∧ (validateOp s₂ d).2 = s₂ := by
  cases d with
  | mk text =>
    cases text with
    | none => exact ⟨rfl, rfl, rfl⟩
    | some t => exact ⟨by simp [validateOp, h], rfl, rfl⟩

/-- C10 witness: the purity theorem instantiated at two distinct
concrete states sharing `preserveBlank = false`. -/
theorem validate_two_arg_pure_witness :
    stA.preserveBlank = stB.preserveBlank ∧
    ((validateOp stA { text := some "  x " }).1 =
        (validateOp stB { text := some "  x " }).1 ∧
      (validateOp stA { text := some "  x " }).2 = stA ∧
      (validateOp stB { text := some "  x " }).2 = stB) :=
  ⟨rfl, validate_two_arg_pure stA stB { text := some "  x " } rfl⟩

end TitleTool
